import Mathlib

/-!
Shallow embedding of `src/uev3dev/motors.py` (ev3dev/micropython-ev3dev).

The module drives a LEGO EV3 tacho motor through sysfs attribute files.
We embed the `TachoMotor` class: its cached construction-time properties
become a structure, and every sysfs side effect (opening an attribute,
reading it, writing a value, sleeping) becomes an explicit `Event` in a
trace.  A Python method that may `raise` is embedded as a function
returning the trace of events it performed together with an optional
error; a raise aborts the method, so events after the raise point do not
appear in the trace.
-/

/-- Python `int()` applied to an exact rational: truncation toward zero.
`Int.tdiv` truncates toward zero and a rational's denominator is positive,
so `q.num.tdiv q.den` is the integer part of `q`. -/
def pyint (q : ℚ) : ℤ := q.num.tdiv q.den

/-- One observable side effect against the sysfs attribute store:
opening an attribute file with a mode, reading it, writing a string or an
integer to it, or sleeping (from `utime.sleep`). -/
inductive Event where
  | openAttr (name mode : String)
  | readAttr (name : String)
  | writeStr (name value : String)
  | writeInt (name : String) (value : ℤ)
  | sleep (seconds : ℚ)
  deriving DecidableEq, Repr

/-- The two error kinds of the module: `MotorNotFoundError` (carrying the
message built in its `__init__`) and Python's `ValueError` with a message. -/
inductive Err where
  | motorNotFound (msg : String)
  | valueError (msg : String)
  deriving DecidableEq, Repr

/-- Modelled from the spec: the sysfs "attribute store" collaborator
(`uev3dev.sysfs`, not part of the given sources).  A discovered device
node is a record of the string/integer values that reads of the static
attributes return. -/
structure DeviceNode where
  commands : String
  count_per_rot : ℤ
  driver_name : String
  max_speed : ℤ
  stop_actions : String
  deriving DecidableEq, Repr

/-- The cached state of a constructed `TachoMotor`: the properties read
once in `__init__` (lines 37-52 of `motors.py`).  The attribute handles
themselves carry no state we track; writes to them appear in traces. -/
structure TachoMotor where
  _commands : List String
  _count_per_rot : ℤ
  _driver_name : String
  _max_speed : ℤ
  _stop_actions : List String
  port : String
  deriving DecidableEq, Repr

/-- `StopAction` enum from `motors.py` line 11. -/
def StopAction.COAST : String := "coast"

def StopAction.BRAKE : String := "brake"

def StopAction.HOLD : String := "hold"

/-- Sequencing of two effectful steps: if the first raised, the second
does not run; otherwise the traces concatenate and the second's error
(if any) propagates. -/
def mseq (a b : List Event × Option Err) : List Event × Option Err :=
  match a with
  | (evs, some e) => (evs, some e)
  | (evs, none) => (evs ++ b.1, b.2)

/-- `TachoMotor._set_duty_cycle_sp` (lines 149-152): range check on
[-100, 100], then write. -/
def TachoMotor._set_duty_cycle_sp (m : TachoMotor) (duty_cycle : ℤ) :
    List Event × Option Err :=
  if duty_cycle < -100 ∨ duty_cycle > 100 then
    ([], some (.valueError "duty cycle is out of range"))
  else ([.writeInt "duty_cycle_sp" duty_cycle], none)

/-- `TachoMotor._set_speed_sp` (lines 154-159): convert degrees/second to
tacho counts/second with `int(speed * count_per_rot / 360)`, range check
against the cached `max_speed`, then write. -/
def TachoMotor._set_speed_sp (m : TachoMotor) (speed : ℚ) :
    List Event × Option Err :=
  let speed := pyint (speed * (m._count_per_rot : ℚ) / 360)
  if speed < -m._max_speed ∨ speed > m._max_speed then
    ([], some (.valueError "speed is out of range"))
  else ([.writeInt "speed_sp" speed], none)

/-- `TachoMotor._set_position_sp` (lines 161-164): convert rotations to
tacho counts with `int(count_per_rot * rotations)` and write; there is no
range check. -/
def TachoMotor._set_position_sp (m : TachoMotor) (rotations : ℚ) :
    List Event × Option Err :=
  let counts := pyint ((m._count_per_rot : ℚ) * rotations)
  ([.writeInt "position_sp" counts], none)

/-- `TachoMotor._set_time_sp` (lines 166-169): reject negative time, then
write. -/
def TachoMotor._set_time_sp (m : TachoMotor) (time : ℤ) :
    List Event × Option Err :=
  if time < 0 then ([], some (.valueError "time is out of range"))
  else ([.writeInt "time_sp" time], none)

/-- `TachoMotor._set_stop_action` (lines 171-174): the action must be in
the cached device-reported list, then write. -/
def TachoMotor._set_stop_action (m : TachoMotor) (action : String) :
    List Event × Option Err :=
  if action ∉ m._stop_actions then ([], some (.valueError "Invalid stop action"))
  else ([.writeStr "stop_action" action], none)

/-- `TachoMotor.run` (lines 70-79): set the speed setpoint, then command
`run-forever`. -/
def TachoMotor.run (m : TachoMotor) (speed : ℚ) : List Event × Option Err :=
  mseq (m._set_speed_sp speed) ([.writeStr "command" "run-forever"], none)

/-- The `while wait:` loop of `run_for_rotations` (lines 103-106): it only
reads the `state` attribute, splitting each reading on spaces, and clears
`wait` once `running` is absent or `holding` is present.  `states` is the
sequence of values successive reads of the attribute return. -/
def pollStates : List String → List Event
  | [] => []
  | s :: rest =>
    let state := s.splitOn " "
    if "running" ∉ state ∨ "holding" ∈ state then [.readAttr "state"]
    else .readAttr "state" :: pollStates rest

/-- `TachoMotor.run_for_rotations` (lines 81-106): negate rotations when
the speed is negative, set speed, stop action and position setpoints,
command `run-to-rel-pos`, then (when `wait`) poll the `state` attribute. -/
def TachoMotor.run_for_rotations (m : TachoMotor) (speed rotations : ℚ)
    (stop_action : String) (wait : Bool) (states : List String) :
    List Event × Option Err :=
  let rotations := if speed < 0 then rotations * (-1) else rotations
  mseq (m._set_speed_sp speed) <|
  mseq (m._set_stop_action stop_action) <|
  mseq (m._set_position_sp rotations) <|
  ([.writeStr "command" "run-to-rel-pos"] ++
    (if wait then pollStates states else []), none)

/-- `TachoMotor.run_for_time` (lines 108-128): set speed, time
(`int(time * 1000)` milliseconds) and stop-action setpoints; when `wait`,
command `run-forever`, sleep for `time` seconds and command `stop`;
otherwise command `run-timed`. -/
def TachoMotor.run_for_time (m : TachoMotor) (speed time : ℚ)
    (stop_action : String) (wait : Bool) : List Event × Option Err :=
  mseq (m._set_speed_sp speed) <|
  mseq (m._set_time_sp (pyint (time * 1000))) <|
  mseq (m._set_stop_action stop_action) <|
  (if wait then
    [.writeStr "command" "run-forever", .sleep time, .writeStr "command" "stop"]
   else [.writeStr "command" "run-timed"], none)

/-- `TachoMotor.run_unregulated` (lines 130-139): set the duty-cycle
setpoint, then command `run-direct`. -/
def TachoMotor.run_unregulated (m : TachoMotor) (duty_cycle : ℤ) :
    List Event × Option Err :=
  mseq (m._set_duty_cycle_sp duty_cycle) ([.writeStr "command" "run-direct"], none)

/-- `TachoMotor.stop` (lines 141-147): set the stop action, then command
`stop`. -/
def TachoMotor.stop (m : TachoMotor) (action : String) : List Event × Option Err :=
  mseq (m._set_stop_action action) ([.writeStr "command" "stop"], none)

/-- Port expansion from `__init__` (lines 31-32): a single-character port
is prefixed with `ev3-ports:out`. -/
def expandPort (port : String) : String :=
  if port.length = 1 then "ev3-ports:out" ++ port else port

/-- The side effects of a successful `__init__` (lines 36-53) in source
order: open each attribute endpoint with its mode, read the static
properties as they are opened, and finally write the `reset` command. -/
def initEvents : List Event :=
  [.openAttr "command" "w",
   .openAttr "commands" "r", .readAttr "commands",
   .openAttr "count_per_rot" "r", .readAttr "count_per_rot",
   .openAttr "driver_name" "r", .readAttr "driver_name",
   .openAttr "duty_cycle" "r",
   .openAttr "duty_cycle_sp" "r+",
   .openAttr "max_speed" "r", .readAttr "max_speed",
   .openAttr "position" "r",
   .openAttr "position_sp" "r+",
   .openAttr "ramp_up_sp" "r+",
   .openAttr "ramp_down_sp" "r+",
   .openAttr "speed_sp" "r+",
   .openAttr "state" "r",
   .openAttr "stop_action" "r+",
   .openAttr "stop_actions" "r", .readAttr "stop_actions",
   .openAttr "time_sp" "r+",
   .writeStr "command" "reset"]

/-- `TachoMotor.__init__` (lines 30-53).  `find_node` abstracts
`sysfs.find_node(subsystem, port, driver)` (modelled from the spec: the
collaborator locates a device node by subsystem name, port and driver
match, or reports absence).  `name` is `self.__class__.__name__`.  On a
missing node the `MotorNotFoundError` is raised before any endpoint is
opened; otherwise all endpoints are opened, the static properties are
read and cached, `self.port` is stored, and `reset` is written. -/
def TachoMotor.init (find_node : String → String → String → Option DeviceNode)
    (name port driver : String) : List Event × Except Err TachoMotor :=
  let port := expandPort port
  match find_node "tacho-motor" port driver with
  | none => ([], .error (.motorNotFound (name ++ " not found on port " ++ port)))
  | some node =>
      (initEvents,
       .ok { _commands := node.commands.splitOn " "
             _count_per_rot := node.count_per_rot
             _driver_name := node.driver_name
             _max_speed := node.max_speed
             _stop_actions := node.stop_actions.splitOn " "
             port := port })

/-- `TachoMotor.EV3_LARGE` (line 24). -/
def TachoMotor.EV3_LARGE : String := "lego-ev3-l-motor"

/-- `TachoMotor.EV3_MEDIUM` (line 27). -/
def TachoMotor.EV3_MEDIUM : String := "lego-ev3-m-motor"

/-- `LargeMotor.__init__` (lines 177-185). -/
def LargeMotor.init (find_node : String → String → String → Option DeviceNode)
    (port : String) : List Event × Except Err TachoMotor :=
  TachoMotor.init find_node "LargeMotor" port TachoMotor.EV3_LARGE

/-- `MediumMotor.__init__` (lines 188-196). -/
def MediumMotor.init (find_node : String → String → String → Option DeviceNode)
    (port : String) : List Event × Except Err TachoMotor :=
  TachoMotor.init find_node "MediumMotor" port TachoMotor.EV3_MEDIUM

/-- The native max speed converted to degrees/second, the bound used by
the spec's speed-range property (counts/second times 360 over
counts/rotation). -/
def max_speed_deg_s (m : TachoMotor) : ℚ :=
  (m._max_speed : ℚ) * 360 / (m._count_per_rot : ℚ)

/-- The values written to the `position_sp` attribute in a trace. -/
def posWrites (evs : List Event) : List ℤ :=
  evs.filterMap fun e =>
    match e with
    | .writeInt "position_sp" v => some v
    | _ => none

/-- The values written to the `stop_action` attribute in a trace. -/
def stopActionWrites (evs : List Event) : List String :=
  evs.filterMap fun e =>
    match e with
    | .writeStr "stop_action" v => some v
    | _ => none

/-- The values written to the `time_sp` attribute in a trace. -/
def timeSpWrites (evs : List Event) : List ℤ :=
  evs.filterMap fun e =>
    match e with
    | .writeInt "time_sp" v => some v
    | _ => none

/-- A concrete EV3 large-motor device node (counts/rotation and max
speed are the real values of `lego-ev3-l-motor`), used to instantiate
universally quantified results on concrete inputs. -/
def sampleNode : DeviceNode :=
  { commands := "run-forever run-to-abs-pos run-to-rel-pos run-timed run-direct stop reset"
    count_per_rot := 360
    driver_name := "lego-ev3-l-motor"
    max_speed := 1050
    stop_actions := "coast brake hold" }

/-- A device lookup in which every port/driver pair resolves to
`sampleNode`. -/
def sampleFind : String → String → String → Option DeviceNode :=
  fun _ _ _ => some sampleNode

/-- A device lookup in which no device node exists. -/
def emptyFind : String → String → String → Option DeviceNode :=
  fun _ _ _ => none

/-- A concrete constructed motor matching `sampleNode`. -/
def sampleMotor : TachoMotor :=
  { _commands := ["run-forever", "run-to-abs-pos", "run-to-rel-pos",
                  "run-timed", "run-direct", "stop", "reset"]
    _count_per_rot := 360
    _driver_name := "lego-ev3-l-motor"
    _max_speed := 1050
    _stop_actions := ["coast", "brake", "hold"]
    port := "ev3-ports:outA" }

/-- The motor that `TachoMotor.init sampleFind "TachoMotor" "A" d`
constructs (fields as produced by the constructor, splits left
unevaluated). -/
def sampleInitMotor : TachoMotor :=
  { _commands := sampleNode.commands.splitOn " "
    _count_per_rot := sampleNode.count_per_rot
    _driver_name := sampleNode.driver_name
    _max_speed := sampleNode.max_speed
    _stop_actions := sampleNode.stop_actions.splitOn " "
    port := expandPort "A" }

/-! ### Helper lemmas about `pyint`, `mseq` and the trace projections -/

theorem pyint_nonneg_eq_floor (q : ℚ) (h : 0 ≤ q) : pyint q = ⌊q⌋ := by
  unfold pyint
  rw [Int.tdiv_eq_ediv (Rat.num_nonneg.mpr h) (by positivity), Rat.floor_def]

theorem pyint_neg (q : ℚ) : pyint (-q) = -pyint q := by
  unfold pyint
  rw [Rat.num_neg_eq_neg_num, Rat.den_neg_eq_den, Int.neg_tdiv]

theorem pyint_nonpos_eq_ceil (q : ℚ) (h : q ≤ 0) : pyint q = ⌈q⌉ := by
  have h1 : pyint (-q) = ⌊-q⌋ := pyint_nonneg_eq_floor _ (by linarith)
  rw [pyint_neg, Int.floor_neg] at h1
  omega

theorem pyint_intCast (n : ℤ) : pyint (n : ℚ) = n := by
  unfold pyint
  rw [Rat.num_intCast, Rat.den_intCast, Nat.cast_one, Int.tdiv_one]

/-- Truncation toward zero maps `[-M, M]` into `[-M, M]`. -/
theorem pyint_bounds {q : ℚ} {M : ℤ} (h1 : -(M : ℚ) ≤ q) (h2 : q ≤ (M : ℚ)) :
    -M ≤ pyint q ∧ pyint q ≤ M := by
  rcases le_or_lt 0 q with hq | hq
  · rw [pyint_nonneg_eq_floor q hq]
    constructor
    · have h := Int.floor_le_floor (α := ℚ) h1
      rwa [show (-(M : ℚ)) = ((-M : ℤ) : ℚ) by push_cast; ring,
        Int.floor_intCast] at h
    · have h := Int.floor_le_floor (α := ℚ) h2
      rwa [Int.floor_intCast] at h
  · rw [pyint_nonpos_eq_ceil q (le_of_lt hq)]
    constructor
    · have h := Int.ceil_le_ceil (α := ℚ) h1
      rwa [show (-(M : ℚ)) = ((-M : ℤ) : ℚ) by push_cast; ring,
        Int.ceil_intCast] at h
    · have h := Int.ceil_le_ceil (α := ℚ) h2
      rwa [Int.ceil_intCast] at h

theorem mseq_of_err {a : List Event × Option Err} (b : List Event × Option Err)
    {e : Err} (h : a.2 = some e) : mseq a b = a := by
  obtain ⟨evs, err⟩ := a
  cases err with
  | none => simp at h
  | some e' => rfl

theorem mseq_of_ok {a : List Event × Option Err} (b : List Event × Option Err)
    (h : a.2 = none) : mseq a b = (a.1 ++ b.1, b.2) := by
  obtain ⟨evs, err⟩ := a
  cases err with
  | none => rfl
  | some e' => simp at h

theorem set_speed_sp_cases (m : TachoMotor) (s : ℚ) :
    m._set_speed_sp s = ([], some (.valueError "speed is out of range")) ∨
    m._set_speed_sp s =
      ([.writeInt "speed_sp" (pyint (s * (m._count_per_rot : ℚ) / 360))], none) := by
  unfold TachoMotor._set_speed_sp
  dsimp only
  split
  · exact Or.inl rfl
  · exact Or.inr rfl

theorem set_time_sp_cases (m : TachoMotor) (t : ℤ) :
    (t < 0 ∧ m._set_time_sp t = ([], some (.valueError "time is out of range"))) ∨
    (0 ≤ t ∧ m._set_time_sp t = ([.writeInt "time_sp" t], none)) := by
  unfold TachoMotor._set_time_sp
  split
  · exact Or.inl ⟨by omega, rfl⟩
  · next h => exact Or.inr ⟨by omega, rfl⟩

theorem set_stop_action_of_not_mem {m : TachoMotor} {a : String}
    (h : a ∉ m._stop_actions) :
    m._set_stop_action a = ([], some (.valueError "Invalid stop action")) := by
  unfold TachoMotor._set_stop_action
  rw [if_pos h]

theorem set_stop_action_of_mem {m : TachoMotor} {a : String}
    (h : a ∈ m._stop_actions) :
    m._set_stop_action a = ([.writeStr "stop_action" a], none) := by
  unfold TachoMotor._set_stop_action
  rw [if_neg (by simpa using h)]

/-- The range check of `_set_speed_sp` is symmetric in the sign of the
speed: negating the speed negates the converted setpoint and leaves the
pass/fail outcome unchanged. -/
theorem set_speed_sp_neg_snd (m : TachoMotor) (s : ℚ) :
    (m._set_speed_sp (-s)).2 = (m._set_speed_sp s).2 := by
  unfold TachoMotor._set_speed_sp
  rw [show -s * (m._count_per_rot : ℚ) / 360 =
    -(s * (m._count_per_rot : ℚ) / 360) by ring, pyint_neg]
  dsimp only
  split_ifs with h1 h2 h2 <;> first | rfl | (exfalso; omega)

theorem pollStates_all_read (l : List String) :
    ∀ e ∈ pollStates l, e = Event.readAttr "state" := by
  induction l with
  | nil => intro e he; simp [pollStates] at he
  | cons s rest ih =>
    intro e he
    unfold pollStates at he
    dsimp only at he
    split at he
    · simpa using he
    · rcases List.mem_cons.mp he with h | h
      · exact h
      · exact ih e h

theorem posWrites_append (l1 l2 : List Event) :
    posWrites (l1 ++ l2) = posWrites l1 ++ posWrites l2 := by
  simp [posWrites]

theorem stopActionWrites_append (l1 l2 : List Event) :
    stopActionWrites (l1 ++ l2) = stopActionWrites l1 ++ stopActionWrites l2 := by
  simp [stopActionWrites]

theorem timeSpWrites_append (l1 l2 : List Event) :
    timeSpWrites (l1 ++ l2) = timeSpWrites l1 ++ timeSpWrites l2 := by
  simp [timeSpWrites]

theorem posWrites_pollStates (l : List String) : posWrites (pollStates l) = [] := by
  rw [posWrites, List.filterMap_eq_nil_iff]
  intro e he
  rw [pollStates_all_read l e he]

theorem timeSpWrites_pollStates (l : List String) :
    timeSpWrites (pollStates l) = [] := by
  rw [timeSpWrites, List.filterMap_eq_nil_iff]
  intro e he
  rw [pollStates_all_read l e he]

theorem stopActionWrites_pollStates (l : List String) :
    stopActionWrites (pollStates l) = [] := by
  rw [stopActionWrites, List.filterMap_eq_nil_iff]
  intro e he
  rw [pollStates_all_read l e he]

theorem posWrites_rfr_trace (v1 : ℤ) (a : String) (v2 : ℤ) (tail : List Event) :
    posWrites ([Event.writeInt "speed_sp" v1] ++ ([Event.writeStr "stop_action" a] ++
      ([Event.writeInt "position_sp" v2] ++
        ([Event.writeStr "command" "run-to-rel-pos"] ++ tail)))) =
      v2 :: posWrites tail := rfl

theorem timeSpWrites_rfr_trace (v1 : ℤ) (a : String) (v2 : ℤ) (tail : List Event) :
    timeSpWrites ([Event.writeInt "speed_sp" v1] ++ ([Event.writeStr "stop_action" a] ++
      ([Event.writeInt "position_sp" v2] ++
        ([Event.writeStr "command" "run-to-rel-pos"] ++ tail)))) =
      timeSpWrites tail := rfl

/-! ### Claims -/

/-- C1: for every speed (degrees/second) within
`[-max_speed_deg_s, max_speed_deg_s]`, where `max_speed_deg_s` is the
cached native `max_speed` converted to degrees/second, the native
setpoint `int(speed * count_per_rot / 360)` computed by `_set_speed_sp`
lies within `[-max_speed, max_speed]`, so the range check passes and the
converted value is written. -/
theorem c1_speed_conversion_within_max (m : TachoMotor) (speed : ℚ)
    (hc : 0 < m._count_per_rot)
    (hlo : -(max_speed_deg_s m) ≤ speed) (hhi : speed ≤ max_speed_deg_s m) :
    ∃ v : ℤ, m._set_speed_sp speed = ([.writeInt "speed_sp" v], none) ∧
      -m._max_speed ≤ v ∧ v ≤ m._max_speed := by
  have hc' : (0 : ℚ) < (m._count_per_rot : ℚ) := by exact_mod_cast hc
  unfold max_speed_deg_s at hlo hhi
  have h360 : (0 : ℚ) < 360 := by norm_num
  have hq1 : speed * (m._count_per_rot : ℚ) / 360 ≤ (m._max_speed : ℚ) := by
    rw [div_le_iff h360]
    have h := (le_div_iff hc').mp hhi
    linarith
  have hq2 : -((m._max_speed : ℚ)) ≤ speed * (m._count_per_rot : ℚ) / 360 := by
    rw [le_div_iff h360]
    rw [show -((m._max_speed : ℚ) * 360 / (m._count_per_rot : ℚ)) =
      (-((m._max_speed : ℚ) * 360)) / (m._count_per_rot : ℚ) by ring] at hlo
    have h := (div_le_iff hc').mp hlo
    linarith
  obtain ⟨hb1, hb2⟩ := pyint_bounds hq2 hq1
  refine ⟨pyint (speed * (m._count_per_rot : ℚ) / 360), ?_, hb1, hb2⟩
  unfold TachoMotor._set_speed_sp
  dsimp only
  rw [if_neg (by simp only [not_or, not_lt]; exact ⟨hb1, by exact hb2⟩)]

/-- Witness for C1 at `sampleMotor` (counts/rotation `360`, max speed
`1050` counts/second, hence `1050` degrees/second) and speed `500`. -/
theorem c1_speed_conversion_within_max_witness :
    0 < sampleMotor._count_per_rot ∧
    -(max_speed_deg_s sampleMotor) ≤ 500 ∧ (500 : ℚ) ≤ max_speed_deg_s sampleMotor ∧
    ∃ v : ℤ, sampleMotor._set_speed_sp 500 = ([.writeInt "speed_sp" v], none) ∧
      -sampleMotor._max_speed ≤ v ∧ v ≤ sampleMotor._max_speed :=
  ⟨by decide, by norm_num [max_speed_deg_s, sampleMotor],
   by norm_num [max_speed_deg_s, sampleMotor],
   c1_speed_conversion_within_max sampleMotor 500 (by decide)
     (by norm_num [max_speed_deg_s, sampleMotor])
     (by norm_num [max_speed_deg_s, sampleMotor])⟩

/-- C2: for every rotations value `r` and speed magnitude `s > 0`,
`run_for_rotations` with speed `-s` writes a position setpoint that is the
exact negation of the one written with speed `+s` (sign inversion applied
to `rotations` when the speed is negative, then
`int(count_per_rot * rotations)`). -/
theorem c2_negative_speed_negates_position_sp (m : TachoMotor) (s r : ℚ)
    (act : String) (w : Bool) (states : List String) (hs : 0 < s) :
    posWrites (m.run_for_rotations (-s) r act w states).1 =
      (posWrites (m.run_for_rotations s r act w states).1).map (fun v => -v) := by
  unfold TachoMotor.run_for_rotations
  dsimp only
  rw [if_pos (by linarith : -s < 0), if_neg (by linarith : ¬ s < 0)]
  have hpoll : posWrites (if w then pollStates states else []) = [] := by
    cases w
    · rfl
    · exact posWrites_pollStates states
  rcases set_speed_sp_cases m s with hsp | hsp
  · have h2 : (m._set_speed_sp (-s)).2 = some (.valueError "speed is out of range") := by
      rw [set_speed_sp_neg_snd, hsp]
    rcases set_speed_sp_cases m (-s) with hsp2 | hsp2
    · rw [hsp, hsp2]
      simp [mseq, posWrites]
    · rw [hsp2] at h2
      simp at h2
  · have h2 : (m._set_speed_sp (-s)).2 = none := by
      rw [set_speed_sp_neg_snd, hsp]
    rcases set_speed_sp_cases m (-s) with hsp2 | hsp2
    · rw [hsp2] at h2
      simp at h2
    · rw [hsp, hsp2]
      by_cases ha : act ∈ m._stop_actions
      · rw [set_stop_action_of_mem ha]
        unfold TachoMotor._set_position_sp
        dsimp only
        simp only [mseq]
        rw [posWrites_rfr_trace, posWrites_rfr_trace, hpoll]
        rw [show ((m._count_per_rot : ℚ) * (r * -1)) =
          -((m._count_per_rot : ℚ) * r) by ring, pyint_neg]
        simp
      · rw [set_stop_action_of_not_mem ha]
        simp [mseq, posWrites]

/-- Witness for C2 at `sampleMotor`, speed magnitude `90`, rotations
`5/2`. -/
theorem c2_negative_speed_negates_position_sp_witness :
    (0 : ℚ) < 90 ∧
    posWrites (sampleMotor.run_for_rotations (-90) (5/2) "hold" false []).1 =
      (posWrites (sampleMotor.run_for_rotations 90 (5/2) "hold" false []).1).map
        (fun v => -v) :=
  ⟨by decide,
   c2_negative_speed_negates_position_sp sampleMotor 90 (5/2) "hold" false []
     (by decide)⟩

/-- C3: every setpoint setter (speed, position, time, duty-cycle,
stop-action) performs its range check before the attribute write: when it
raises, its trace is empty (no write happened), and when it does not
raise it performs exactly the setpoint write.  The position setter has no
range constraint and accepts every value, so it never raises. -/
theorem c3_setters_validate_before_write (m : TachoMotor) (sp r : ℚ)
    (t d : ℤ) (a : String) :
    ((m._set_speed_sp sp).2.isSome = true → (m._set_speed_sp sp).1 = []) ∧
    ((m._set_speed_sp sp).2 = none → m._set_speed_sp sp =
      ([.writeInt "speed_sp" (pyint (sp * (m._count_per_rot : ℚ) / 360))], none)) ∧
    ((m._set_duty_cycle_sp d).2.isSome = true → (m._set_duty_cycle_sp d).1 = []) ∧
    ((m._set_duty_cycle_sp d).2 = none →
      m._set_duty_cycle_sp d = ([.writeInt "duty_cycle_sp" d], none)) ∧
    ((m._set_time_sp t).2.isSome = true → (m._set_time_sp t).1 = []) ∧
    ((m._set_time_sp t).2 = none → m._set_time_sp t = ([.writeInt "time_sp" t], none)) ∧
    ((m._set_stop_action a).2.isSome = true → (m._set_stop_action a).1 = []) ∧
    ((m._set_stop_action a).2 = none →
      m._set_stop_action a = ([.writeStr "stop_action" a], none)) ∧
    (m._set_position_sp r).2 = none ∧
    (m._set_position_sp r).1 =
      [.writeInt "position_sp" (pyint ((m._count_per_rot : ℚ) * r))] := by
  refine ⟨?_, ?_, ?_, ?_, ?_, ?_, ?_, ?_, rfl, rfl⟩ <;>
    · simp only [TachoMotor._set_speed_sp, TachoMotor._set_duty_cycle_sp,
        TachoMotor._set_time_sp, TachoMotor._set_stop_action]
      split <;> simp

/-- Witness for C3 at `sampleMotor` with a speed, duty cycle, time and
stop action that all fail validation: every setter raised with an empty
trace, and the position setter accepted its argument. -/
theorem c3_setters_validate_before_write_witness :
    (sampleMotor._set_speed_sp 2000).1 = [] ∧
    (sampleMotor._set_duty_cycle_sp 150).1 = [] ∧
    (sampleMotor._set_time_sp (-1)).1 = [] ∧
    (sampleMotor._set_stop_action "float").1 = [] ∧
    (sampleMotor._set_position_sp (5/2)).2 = none :=
  ⟨(c3_setters_validate_before_write sampleMotor 2000 (5/2) (-1) 150 "float").1
      (by norm_num [TachoMotor._set_speed_sp, sampleMotor, pyint]),
   (c3_setters_validate_before_write sampleMotor 2000 (5/2) (-1) 150 "float").2.2.1
      (by decide),
   (c3_setters_validate_before_write sampleMotor 2000 (5/2) (-1) 150 "float").2.2.2.2.1
      (by decide),
   (c3_setters_validate_before_write sampleMotor 2000 (5/2) (-1) 150 "float").2.2.2.2.2.2.1
      (by decide),
   (c3_setters_validate_before_write sampleMotor 2000 (5/2) (-1) 150 "float").2.2.2.2.2.2.2.2.1⟩

/-- C4: `run_unregulated` with a duty cycle outside `[-100, 100]` raises
`ValueError` before writing the duty-cycle setpoint or any command; with
a duty cycle inside the range it writes the setpoint and issues
`run-direct` without raising. -/
theorem c4_run_unregulated_duty_cycle_range (m : TachoMotor) (d : ℤ) :
    ((d < -100 ∨ d > 100) → m.run_unregulated d =
      ([], some (.valueError "duty cycle is out of range"))) ∧
    (-100 ≤ d → d ≤ 100 → m.run_unregulated d =
      ([.writeInt "duty_cycle_sp" d, .writeStr "command" "run-direct"], none)) := by
  unfold TachoMotor.run_unregulated TachoMotor._set_duty_cycle_sp
  constructor
  · intro h
    rw [if_pos h]
    rfl
  · intro h1 h2
    rw [if_neg (by omega)]
    rfl

/-- Witness for C4 at `sampleMotor` with duty cycles `150` and `-75`. -/
theorem c4_run_unregulated_duty_cycle_range_witness :
    sampleMotor.run_unregulated 150 =
      ([], some (.valueError "duty cycle is out of range")) ∧
    sampleMotor.run_unregulated (-75) =
      ([.writeInt "duty_cycle_sp" (-75), .writeStr "command" "run-direct"], none) :=
  ⟨(c4_run_unregulated_duty_cycle_range sampleMotor 150).1 (by decide),
   (c4_run_unregulated_duty_cycle_range sampleMotor (-75)).2 (by decide) (by decide)⟩

/-- C5: for a stop action outside the device-reported supported set
cached at construction, every operation that sets a stop action (`stop`,
`run_for_rotations`, `run_for_time`) raises and never writes the
`stop_action` attribute; a member of the set is written by
`_set_stop_action` without raising. -/
theorem c5_stop_action_membership (m : TachoMotor) (a : String) (s t r : ℚ)
    (w : Bool) (states : List String) :
    (a ∉ m._stop_actions →
      m.stop a = ([], some (.valueError "Invalid stop action")) ∧
      (m.run_for_rotations s r a w states).2.isSome = true ∧
      stopActionWrites (m.run_for_rotations s r a w states).1 = [] ∧
      (m.run_for_time s t a w).2.isSome = true ∧
      stopActionWrites (m.run_for_time s t a w).1 = []) ∧
    (a ∈ m._stop_actions →
      m._set_stop_action a = ([.writeStr "stop_action" a], none)) := by
  constructor
  · intro h
    have hstop := set_stop_action_of_not_mem h
    refine ⟨?_, ?_, ?_, ?_, ?_⟩
    · unfold TachoMotor.stop
      rw [hstop]
      rfl
    · unfold TachoMotor.run_for_rotations
      dsimp only
      rcases set_speed_sp_cases m s with hsp | hsp <;>
        rw [hsp] <;> rw [hstop] <;> simp [mseq]
    · unfold TachoMotor.run_for_rotations
      dsimp only
      rcases set_speed_sp_cases m s with hsp | hsp <;>
        rw [hsp] <;> rw [hstop] <;> simp [mseq, stopActionWrites]
    · unfold TachoMotor.run_for_time
      rcases set_speed_sp_cases m s with hsp | hsp <;> rw [hsp, hstop] <;>
        rcases set_time_sp_cases m (pyint (t * 1000)) with ⟨_, hti⟩ | ⟨_, hti⟩ <;>
          rw [hti] <;> simp [mseq]
    · unfold TachoMotor.run_for_time
      rcases set_speed_sp_cases m s with hsp | hsp <;> rw [hsp, hstop] <;>
        rcases set_time_sp_cases m (pyint (t * 1000)) with ⟨_, hti⟩ | ⟨_, hti⟩ <;>
          rw [hti] <;> simp [mseq, stopActionWrites]
  · exact fun h => set_stop_action_of_mem h

/-- Witness for C5 at `sampleMotor` with the unsupported action `"float"`
and the supported action `"hold"`. -/
theorem c5_stop_action_membership_witness :
    ("float" ∉ sampleMotor._stop_actions ∧
      sampleMotor.stop "float" = ([], some (.valueError "Invalid stop action")) ∧
      stopActionWrites (sampleMotor.run_for_time 90 2 "float" true).1 = []) ∧
    ("hold" ∈ sampleMotor._stop_actions ∧
      sampleMotor._set_stop_action "hold" = ([.writeStr "stop_action" "hold"], none)) :=
  ⟨⟨by decide,
    ((c5_stop_action_membership sampleMotor "float" 90 2 (1/2) true []).1
      (by decide)).1,
    ((c5_stop_action_membership sampleMotor "float" 90 2 (1/2) true []).1
      (by decide)).2.2.2.2⟩,
   ⟨by decide,
    (c5_stop_action_membership sampleMotor "hold" 90 2 (1/2) true []).2
      (by decide)⟩⟩

/-- C6: constructing a motor for a port/driver pair with no matching
device node raises `MotorNotFoundError` before any attribute endpoint is
opened and before the reset command (the trace is empty); when a node is
found, construction succeeds without this error. -/
theorem c6_construct_not_found
    (find_node : String → String → String → Option DeviceNode)
    (name port driver : String) :
    (find_node "tacho-motor" (expandPort port) driver = none →
      TachoMotor.init find_node name port driver =
        ([], .error (.motorNotFound (name ++ " not found on port " ++ expandPort port)))) ∧
    (∀ node, find_node "tacho-motor" (expandPort port) driver = some node →
      (TachoMotor.init find_node name port driver).2.isOk = true) := by
  unfold TachoMotor.init
  dsimp only
  constructor
  · intro h
    rw [h]
  · intro node h
    rw [h]
    rfl

/-- Witness for C6 with the empty lookup (no device) and the sample
lookup (device present). -/
theorem c6_construct_not_found_witness :
    TachoMotor.init emptyFind "LargeMotor" "A" "lego-ev3-l-motor" =
      ([], .error (.motorNotFound
        ("LargeMotor" ++ " not found on port " ++ expandPort "A"))) ∧
    (TachoMotor.init sampleFind "LargeMotor" "A" "lego-ev3-l-motor").2.isOk = true :=
  ⟨(c6_construct_not_found emptyFind "LargeMotor" "A" "lego-ev3-l-motor").1 rfl,
   (c6_construct_not_found sampleFind "LargeMotor" "A" "lego-ev3-l-motor").2
     sampleNode rfl⟩

/-- C7: `run_for_time` first writes the speed, time (milliseconds,
`int(time * 1000)`) and stop-action setpoints; then, when `wait` is true,
it writes `run-forever`, sleeps for the duration and writes `stop`; when
`wait` is false it writes the single command `run-timed`. -/
theorem c7_run_for_time_sequencing (m : TachoMotor) (s t : ℚ) (a : String)
    (w : Bool)
    (hs : (m._set_speed_sp s).2 = none)
    (ht : 0 ≤ pyint (t * 1000))
    (ha : a ∈ m._stop_actions) :
    m.run_for_time s t a w =
      ([.writeInt "speed_sp" (pyint (s * (m._count_per_rot : ℚ) / 360)),
        .writeInt "time_sp" (pyint (t * 1000)),
        .writeStr "stop_action" a] ++
       (if w then
         [.writeStr "command" "run-forever", .sleep t, .writeStr "command" "stop"]
        else [.writeStr "command" "run-timed"]), none) := by
  rcases set_speed_sp_cases m s with hsp | hsp
  · rw [hsp] at hs
    simp at hs
  · rcases set_time_sp_cases m (pyint (t * 1000)) with ⟨h1, _⟩ | ⟨_, h2⟩
    · omega
    · unfold TachoMotor.run_for_time
      rw [hsp, h2, set_stop_action_of_mem ha]
      cases w <;> rfl

/-- Witness for C7 at `sampleMotor`, speed `360` deg/s, time `2` s, stop
action `"hold"`, with `wait` true. -/
theorem c7_run_for_time_sequencing_witness :
    (sampleMotor._set_speed_sp 360).2 = none ∧
    0 ≤ pyint ((2 : ℚ) * 1000) ∧
    sampleMotor.run_for_time 360 2 "hold" true =
      ([.writeInt "speed_sp" (pyint ((360 : ℚ) * (sampleMotor._count_per_rot : ℚ) / 360)),
        .writeInt "time_sp" (pyint ((2 : ℚ) * 1000)),
        .writeStr "stop_action" "hold",
        .writeStr "command" "run-forever", .sleep 2, .writeStr "command" "stop"], none) :=
  ⟨by norm_num [TachoMotor._set_speed_sp, sampleMotor, pyint],
   by norm_num [pyint],
   c7_run_for_time_sequencing sampleMotor 360 2 "hold" true
     (by norm_num [TachoMotor._set_speed_sp, sampleMotor, pyint])
     (by norm_num [pyint])
     (by decide)⟩

/-- C8 counterexample: at a concrete device lookup the construction
trace contains both the reset write and the read of `count_per_rot`, but
the reset write does NOT precede the read — the static properties are
read and cached first (lines 37-51) and `reset` is written last
(line 53), contradicting the claimed reset-then-read order. -/
theorem c8_reset_then_read_counterexample :
    Event.writeStr "command" "reset" ∈
      (TachoMotor.init sampleFind "TachoMotor" "A" "lego-ev3-l-motor").1 ∧
    Event.readAttr "count_per_rot" ∈
      (TachoMotor.init sampleFind "TachoMotor" "A" "lego-ev3-l-motor").1 ∧
    ¬ ((TachoMotor.init sampleFind "TachoMotor" "A" "lego-ev3-l-motor").1.indexOf
        (Event.writeStr "command" "reset") <
       (TachoMotor.init sampleFind "TachoMotor" "A" "lego-ev3-l-motor").1.indexOf
        (Event.readAttr "count_per_rot")) := by
  decide

/-- C8 amended: construction, after resolving the device node, opens the
attribute endpoints and reads and caches the static properties
(supported commands, counts-per-rotation, driver name, max speed,
supported stop actions), and only then issues the reset command as the
final action of the trace. -/
theorem c8_reads_then_reset
    (find_node : String → String → String → Option DeviceNode)
    (name port driver : String) (node : DeviceNode)
    (h : find_node "tacho-motor" (expandPort port) driver = some node) :
    ∃ pre, (TachoMotor.init find_node name port driver).1 =
        pre ++ [Event.writeStr "command" "reset"] ∧
      Event.readAttr "commands" ∈ pre ∧
      Event.readAttr "count_per_rot" ∈ pre ∧
      Event.readAttr "driver_name" ∈ pre ∧
      Event.readAttr "max_speed" ∈ pre ∧
      Event.readAttr "stop_actions" ∈ pre := by
  refine ⟨initEvents.dropLast, ?_, by decide, by decide, by decide, by decide, by decide⟩
  unfold TachoMotor.init
  dsimp only
  rw [h]
  rfl

/-- Witness for the amended C8 at the sample lookup. -/
theorem c8_reads_then_reset_witness :
    sampleFind "tacho-motor" (expandPort "A") "lego-ev3-l-motor" = some sampleNode ∧
    ∃ pre, (TachoMotor.init sampleFind "TachoMotor" "A" "lego-ev3-l-motor").1 =
        pre ++ [Event.writeStr "command" "reset"] ∧
      Event.readAttr "commands" ∈ pre ∧
      Event.readAttr "count_per_rot" ∈ pre ∧
      Event.readAttr "driver_name" ∈ pre ∧
      Event.readAttr "max_speed" ∈ pre ∧
      Event.readAttr "stop_actions" ∈ pre :=
  ⟨rfl, c8_reads_then_reset sampleFind "TachoMotor" "A" "lego-ev3-l-motor"
    sampleNode rfl⟩

/-- C9: every value ever written to the `time_sp` attribute is
non-negative: `_set_time_sp` raises on a negative argument before
writing, `run_for_time` writes only the validated `int(time * 1000)`,
and no other operation (nor construction) writes `time_sp` at all. -/
theorem c9_time_sp_nonneg_invariant (m : TachoMotor)
    (find_node : String → String → String → Option DeviceNode)
    (name port driver : String) (s t r : ℚ) (d : ℤ) (a : String) (w : Bool)
    (states : List String) :
    (∀ v ∈ timeSpWrites (m.run_for_time s t a w).1, 0 ≤ v) ∧
    (∀ tm : ℤ, tm < 0 →
      m._set_time_sp tm = ([], some (.valueError "time is out of range"))) ∧
    timeSpWrites (m.run s).1 = [] ∧
    timeSpWrites (m.run_for_rotations s r a w states).1 = [] ∧
    timeSpWrites (m.run_unregulated d).1 = [] ∧
    timeSpWrites (m.stop a).1 = [] ∧
    timeSpWrites (TachoMotor.init find_node name port driver).1 = [] := by
  refine ⟨?_, ?_, ?_, ?_, ?_, ?_, ?_⟩
  · unfold TachoMotor.run_for_time
    rcases set_speed_sp_cases m s with hsp | hsp <;> rw [hsp]
    · simp [mseq, timeSpWrites]
    · rcases set_time_sp_cases m (pyint (t * 1000)) with ⟨_, hti⟩ | ⟨h0, hti⟩ <;>
        rw [hti]
      · simp [mseq, timeSpWrites]
      · by_cases ha : a ∈ m._stop_actions
        · rw [set_stop_action_of_mem ha]
          cases w <;> simp [mseq, timeSpWrites] <;> exact h0
        · rw [set_stop_action_of_not_mem ha]
          simp [mseq, timeSpWrites]
          exact h0
  · intro tm htm
    unfold TachoMotor._set_time_sp
    rw [if_pos htm]
  · unfold TachoMotor.run
    rcases set_speed_sp_cases m s with hsp | hsp <;> rw [hsp] <;>
      simp [mseq, timeSpWrites]
  · unfold TachoMotor.run_for_rotations
    dsimp only
    have hpoll : timeSpWrites (if w then pollStates states else []) = [] := by
      cases w
      · rfl
      · exact timeSpWrites_pollStates states
    rcases set_speed_sp_cases m s with hsp | hsp <;> rw [hsp]
    · simp [mseq, timeSpWrites]
    · by_cases ha : a ∈ m._stop_actions
      · rw [set_stop_action_of_mem ha]
        unfold TachoMotor._set_position_sp
        dsimp only
        simp only [mseq]
        rw [timeSpWrites_rfr_trace, hpoll]
      · rw [set_stop_action_of_not_mem ha]
        simp [mseq, timeSpWrites]
  · unfold TachoMotor.run_unregulated TachoMotor._set_duty_cycle_sp
    split <;> simp [mseq, timeSpWrites]
  · unfold TachoMotor.stop
    by_cases ha : a ∈ m._stop_actions
    · rw [set_stop_action_of_mem ha]
      simp [mseq, timeSpWrites]
    · rw [set_stop_action_of_not_mem ha]
      simp [mseq, timeSpWrites]
  · unfold TachoMotor.init
    dsimp only
    rcases hfd : find_node "tacho-motor" (expandPort port) driver with _ | node
    · rfl
    · rfl

/-- Witness for C9 at `sampleMotor` with `run_for_time` speed `360`,
time `2`, and a negative `_set_time_sp` argument. -/
theorem c9_time_sp_nonneg_invariant_witness :
    (∀ v ∈ timeSpWrites (sampleMotor.run_for_time 360 2 "hold" true).1, 0 ≤ v) ∧
    sampleMotor._set_time_sp (-500) = ([], some (.valueError "time is out of range")) ∧
    timeSpWrites (sampleMotor.stop "hold").1 = [] :=
  ⟨(c9_time_sp_nonneg_invariant sampleMotor sampleFind "TachoMotor" "A"
      "lego-ev3-l-motor" 360 2 (1/2) 50 "hold" true []).1,
   (c9_time_sp_nonneg_invariant sampleMotor sampleFind "TachoMotor" "A"
      "lego-ev3-l-motor" 360 2 (1/2) 50 "hold" true []).2.1 (-500) (by decide),
   (c9_time_sp_nonneg_invariant sampleMotor sampleFind "TachoMotor" "A"
      "lego-ev3-l-motor" 360 2 (1/2) 50 "hold" true []).2.2.2.2.2.1⟩

theorem expandPort_idem (port : String) :
    expandPort (expandPort port) = expandPort port := by
  unfold expandPort
  split
  · next h =>
    rw [if_neg (by rw [String.length_append, h]; decide)]
  · next h =>
    rfl

/-- C10: a port argument of length exactly 1 is expanded to
`"ev3-ports:out" ++ port` before the device lookup (the constructor
behaves exactly as if called with the expanded port), ports of any other
length are used verbatim, and the stored `port` attribute of a
constructed motor is the expanded name. -/
theorem c10_port_expansion
    (find_node : String → String → String → Option DeviceNode)
    (name port driver : String) :
    TachoMotor.init find_node name port driver =
      TachoMotor.init find_node name (expandPort port) driver ∧
    (port.length = 1 → expandPort port = "ev3-ports:out" ++ port) ∧
    (port.length ≠ 1 → expandPort port = port) ∧
    (∀ evs mot, TachoMotor.init find_node name port driver = (evs, .ok mot) →
      mot.port = expandPort port) := by
  refine ⟨?_, ?_, ?_, ?_⟩
  · unfold TachoMotor.init
    dsimp only
    rw [expandPort_idem]
  · intro h
    simp [expandPort, h]
  · intro h
    simp [expandPort, h]
  · intro evs mot h
    unfold TachoMotor.init at h
    dsimp only at h
    rcases hfd : find_node "tacho-motor" (expandPort port) driver with _ | node <;>
      rw [hfd] at h
    · simp at h
    · simp only [Prod.mk.injEq, Except.ok.injEq] at h
      rw [← h.2]

/-- Witness for C10 at port `"A"` (length 1) and the sample lookup. -/
theorem c10_port_expansion_witness :
    ("A".length = 1 ∧ expandPort "A" = "ev3-ports:out" ++ "A") ∧
    sampleInitMotor.port = expandPort "A" :=
  ⟨⟨by decide,
    (c10_port_expansion sampleFind "TachoMotor" "A" "lego-ev3-l-motor").2.1
      (by decide)⟩,
   (c10_port_expansion sampleFind "TachoMotor" "A" "lego-ev3-l-motor").2.2.2
     initEvents sampleInitMotor rfl⟩
